import Mathlib

/-
  Verification development for the mypadi repository's authentication core
  (accounts app: models.py, utils.py, forms.py, views.py).

  The Python source is shallowly embedded: Django model methods become pure
  functions threading the record explicitly; the Django cache becomes an
  association list of (key, value, expiry) entries with the LocMemCache
  read/write semantics; the HTTP session OTP bag becomes an OtpSession
  record; time is a Nat count of seconds.  Cryptographic primitives that the
  code takes from libraries (HMAC-SHA256, SHA-256, pyotp's TOTP check, the
  password hasher) are universally quantified function parameters, since
  their behaviour is not defined by this repository.
-/

namespace MyPadi

/-! ## Django cache (default LocMemCache), as used by accounts/utils.py -/

structure CacheEntry where
  key : String
  value : Nat
  expires_at : Nat
deriving Repr, DecidableEq

/-- Django cache read with default 0: an entry is live while `now ≤ expires_at`
(LocMemCache treats a key as expired when its deadline is strictly below the
current time). -/
def cacheGet (c : List CacheEntry) (k : String) (now : Nat) : Nat :=
  match c.find? (fun e => e.key == k) with
  | some e => if e.expires_at < now then 0 else e.value
  | none => 0

/-- Django `cache.set(key, value, timeout)`: stores the value with deadline
`now + timeout`, replacing any previous entry for the key. -/
def cacheSet (c : List CacheEntry) (k : String) (v : Nat) (timeout now : Nat) :
    List CacheEntry :=
  { key := k, value := v, expires_at := now + timeout } :: c.filter (fun e => e.key != k)

/-- Django `cache.delete(key)`. -/
def cacheDelete (c : List CacheEntry) (k : String) : List CacheEntry :=
  c.filter (fun e => e.key != k)

/-! ## Rate limiting (accounts/utils.py lines 142-175) -/

/-- The cache key prefix applied by every rate-limit helper. -/
def rlKey (key : String) : String := "rate_limit:" ++ key

/-- `is_rate_limited(key, max_attempts, window_minutes)`: reads the counter
(default 0) and compares with `max_attempts`.  The window parameter is unused
by the read path in the source. -/
def is_rate_limited (c : List CacheEntry) (key : String) (max_attempts : Nat)
    (now : Nat) : Bool :=
  max_attempts ≤ cacheGet c (rlKey key) now

/-- `increment_rate_limit(key, window_minutes)`: reads the counter (default 0)
and writes `attempts + 1` back with timeout `window_minutes * 60`.  Note the
source passes the timeout to `cache.set` on every call, not only on the first
hit of a fresh counter. -/
def increment_rate_limit (c : List CacheEntry) (key : String)
    (window_minutes : Nat) (now : Nat) : List CacheEntry :=
  cacheSet c (rlKey key) (cacheGet c (rlKey key) now + 1) (window_minutes * 60) now

/-- `reset_rate_limit(key)`: deletes the counter. -/
def reset_rate_limit (c : List CacheEntry) (key : String) : List CacheEntry :=
  cacheDelete c (rlKey key)

/-! ## The User model (accounts/models.py), security-relevant fields only.

`password` abstracts the stored password hash: Django's `authenticate`
succeeds exactly when the submitted password checks against the stored hash,
which the embedding renders as string equality with this field. -/

structure User where
  username : String
  email : String
  phone_number : String
  password : String
  is_active : Bool
  is_staff : Bool
  email_verified : Bool
  mfa_method : String
  totp_secret : String
  mfa_backup_codes : List String
  failed_login_attempts : Nat
  account_locked_until : Option Nat
deriving Repr, DecidableEq

/-- `User.is_account_locked` (models.py lines 142-152): returns whether the
account is currently locked; when a stored lock deadline has passed it lazily
clears the lock and resets the failure counter (the `save` call is rendered
by returning the updated record). -/
def is_account_locked (u : User) (now : Nat) : Bool × User :=
  match u.account_locked_until with
  | some t =>
      if now < t then (true, u)
      else (false, { u with account_locked_until := none, failed_login_attempts := 0 })
  | none => (false, u)

/-- `User.increment_failed_login` (models.py lines 154-173): bumps the counter,
then recomputes the lock deadline from the new count (≥5 failures: 30 minutes,
≥3: 5 minutes, otherwise the lock field is left as it was). -/
def increment_failed_login (u : User) (now : Nat) : User :=
  let n := u.failed_login_attempts + 1
  let lock : Option Nat :=
    if 5 ≤ n then some (now + 30 * 60)
    else if 3 ≤ n then some (now + 5 * 60)
    else u.account_locked_until
  { u with failed_login_attempts := n, account_locked_until := lock }

/-- `User.reset_failed_logins` (models.py lines 175-179). -/
def reset_failed_logins (u : User) : User :=
  { u with failed_login_attempts := 0, account_locked_until := none }

/-- `User.verify_totp` (models.py lines 189-194): an empty TOTP secret short
circuits to false; otherwise the check is delegated to pyotp, abstracted as
the `totpCheck` parameter.  The method never writes the record, so the user
is returned unchanged. -/
def verify_totp (totpCheck : String → String → Bool) (u : User) (otp : String) :
    Bool × User :=
  if u.totp_secret = "" then (false, u) else (totpCheck u.totp_secret otp, u)

/-- `User.generate_backup_codes` (models.py lines 196-209): the freshly drawn
plaintext codes are an input (the source draws them from `secrets`); the
record stores only their hashes (`hash` abstracts SHA-256 hexdigest) and the
plaintext list is returned for one-time display. -/
def generate_backup_codes (hash : String → String) (u : User)
    (codes : List String) : User × List String :=
  ({ u with mfa_backup_codes := codes.map hash }, codes)

/-- `User.verify_backup_code` (models.py lines 211-220): hashes the candidate,
and on membership removes that single hash (Python `list.remove`, i.e. first
occurrence) and succeeds; otherwise fails with the record unchanged. -/
def verify_backup_code (hash : String → String) (u : User) (code : String) :
    Bool × User :=
  let h := hash code
  if h ∈ u.mfa_backup_codes then
    (true, { u with mfa_backup_codes := u.mfa_backup_codes.erase h })
  else (false, u)

/-! ## OTP challenges held in the HTTP session (accounts/utils.py lines 178-251)

The session keys `{purpose}_otp`, `{purpose}_otp_created_at` and
`{purpose}_failed_attempts` become the three fields below; absent keys are
`none` (the attempts key reads back through `session.get(key, 0)`, so an
absent counter is 0).  `session_expires_at` records the inactivity deadline
passed to `request.session.set_expiry`; the verification code in the source
never consults it. -/

structure OtpSession where
  otp : Option String
  created_at : Option Nat
  failed_attempts : Nat
  session_expires_at : Nat
deriving Repr, DecidableEq

/-- `store_otp_in_session(request, otp, purpose, expiry_minutes)`: stores the
code and its creation time, zeroes the failure counter, and sets the session
inactivity expiry to `expiry_minutes * 60`. -/
def store_otp_in_session (otp : String) (expiry_minutes : Nat) (now : Nat) :
    OtpSession :=
  { otp := some otp, created_at := some now, failed_attempts := 0,
    session_expires_at := now + expiry_minutes * 60 }

/-- `clear_otp_session(request, purpose)`: pops the OTP keys (the session
object itself, with its expiry, survives). -/
def clear_otp_session (s : OtpSession) : OtpSession :=
  { s with otp := none, created_at := none, failed_attempts := 0 }

/-- `verify_otp_from_session(request, otp, purpose, max_attempts=5)`
(utils.py lines 193-236).  Returns (success, error message, session after the
call).  The checks run in source order: missing/falsy stored data, then the
failure cap, then a hard-coded 10-minute age check (`timedelta(minutes=10)`,
independent of the purpose and of the session expiry), then constant-time
code comparison.  The `fromisoformat` failure branch is unreachable for
timestamps written by `store_otp_in_session` and is not modelled. -/
def verify_otp_from_session (s : OtpSession) (otp : String) (now : Nat)
    (max_attempts : Nat := 5) : Bool × Option String × OtpSession :=
  match s.otp, s.created_at with
  | some stored, some created =>
      if stored = "" then
        (false, some "No OTP found. Please request a new one.", s)
      else if max_attempts ≤ s.failed_attempts then
        (false, some "Too many failed attempts. Please request a new OTP.",
          clear_otp_session s)
      else if created + 10 * 60 < now then
        (false, some "OTP has expired. Please request a new one.",
          clear_otp_session s)
      else if otp = stored then
        (true, none, clear_otp_session s)
      else
        let fa := s.failed_attempts + 1
        let remaining := max_attempts - fa
        if 0 < remaining then
          (false,
            some ("Invalid OTP. " ++ toString remaining ++ " attempts remaining."),
            { s with failed_attempts := fa })
        else
          (false, some "Invalid OTP. Maximum attempts exceeded.",
            clear_otp_session s)
  | _, _ => (false, some "No OTP found. Please request a new one.", s)

/-! ## Signed link tokens (accounts/utils.py lines 78-110)

`hmac.new(secret, message, sha256).hexdigest()` is abstracted as the `mac`
parameter.  Python `str.split(':')`, `int(...)` and `str.lower()` are
embedded below; Unix timestamps are nonnegative, so time is a Nat (for a
forged negative or future timestamp the source and the embedding agree on
the returned boolean anyway: the age test simply does not fire). -/

/-- Python `str.split(sep)` on a list of characters: always returns at least
one (possibly empty) group. -/
def splitCharAux (sep : Char) : List Char → List (List Char)
  | [] => [[]]
  | c :: rest =>
    match splitCharAux sep rest with
    | [] => [[]]
    | g :: gs => if c = sep then [] :: g :: gs else (c :: g) :: gs

/-- Python `s.split(sep)` for a single-character separator. -/
def pySplit (s : String) (sep : Char) : List String :=
  (splitCharAux sep s.data).map fun l => String.mk l

def digitVal? (c : Char) : Option Nat :=
  if c.isDigit then some (c.toNat - 48) else none

def natFromDigits : Nat → List Char → Option Nat
  | acc, [] => some acc
  | acc, c :: cs =>
    match digitVal? c with
    | some d => natFromDigits (acc * 10 + d) cs
    | none => none

/-- Python `int(s)` restricted to the nonnegative decimal strings the token
code produces; anything else (including the empty string) fails, which the
caller turns into a `False` verdict. -/
def pyNat? (s : String) : Option Nat :=
  match s.data with
  | [] => none
  | cs => natFromDigits 0 cs

/-- Python `s.lower()` (ASCII case folding suffices for the emails here). -/
def pyLower (s : String) : String := String.mk (s.data.map Char.toLower)

/-- `generate_verification_token(email)` (utils.py lines 78-86): HMAC over
`lower(email) ++ ":" ++ timestamp`, returned as `digest ++ ":" ++ timestamp`
with the issuance time embedded in cleartext. -/
def generate_verification_token (mac : String → String → String)
    (secret_key email : String) (now : Nat) : String :=
  let timestamp := toString now
  mac secret_key (pyLower email ++ ":" ++ timestamp) ++ ":" ++ timestamp

/-- `verify_token(token_string, email, expiration_hours=24)` (utils.py lines
89-110): splits on `:` (exactly two parts, else the `ValueError` handler
returns false), parses the timestamp, rejects when the embedded time is more
than `expiration_hours` old, then recomputes the HMAC for the supplied email
and compares (constant-time comparison is plain equality here). -/
def verify_token (mac : String → String → String) (secret_key : String)
    (token_string email : String) (now : Nat) (expiration_hours : Nat := 24) :
    Bool :=
  match pySplit token_string ':' with
  | [token, timestamp] =>
    match pyNat? timestamp with
    | some ts =>
      if expiration_hours * 3600 < now - ts then false
      else if token = mac secret_key (pyLower email ++ ":" ++ timestamp) then
        true
      else false
    | none => false
  | _ => false

/-! ## The login flow (accounts/views.py `login_view`, lines 339-443, together
with `EnhancedLoginForm` from accounts/forms.py lines 14-76)

The durable stores become a `Sys` record: the user table, the shared cache,
and the append-only `LoginAttempt` rows.  `SecurityLog` writes and the email
and session plumbing of `complete_login` have no bearing on the claims and
are not tracked.  The identifier argument is the already-normalised
(stripped, lowercased) POST `username` field — both the view (line 358) and
`clean_username` apply the same normalisation. -/

structure LoginAttemptRec where
  identifier : String
  ip : String
  success : Bool
deriving Repr, DecidableEq

structure Sys where
  users : List User
  cache : List CacheEntry
  attempts : List LoginAttemptRec
deriving Repr, DecidableEq

/-- The triple-Q lookup used by both `get_user_by_identifier` (views.py lines
55-74) and `EnhancedLoginForm.clean` (forms.py lines 55-60): first row whose
username, email or phone number equals the identifier. -/
def findByIdentifier (users : List User) (ident : String) : Option User :=
  users.find? fun u =>
    u.username == ident || u.email == ident || u.phone_number == ident

/-- `get_user_by_identifier(identifier)` (views.py lines 55-74): the empty
identifier short-circuits to no account. -/
def get_user_by_identifier (users : List User) (ident : String) : Option User :=
  if ident = "" then none else findByIdentifier users ident

/-- Django `authenticate(request, username=..., password=...)` under the
configured backends (`AdminAuthBackend`, then `ModelBackend`): both look the
user up by the `username` field alone, check the password, and require an
active user (the admin backend additionally requires staff, which the plain
`ModelBackend` fallback subsumes). -/
def authenticate (users : List User) (username password : String) :
    Option User :=
  match users.find? (fun u => u.username == username) with
  | some u => if password = u.password ∧ u.is_active then some u else none
  | none => none

/-- Writing a mutated row back (`user.save(...)`); `username` is the unique
key of the embedded table. -/
def updateUser (users : List User) (u : User) : List User :=
  users.map fun v => if v.username = u.username then u else v

/-- Result of binding and validating `EnhancedLoginForm`: validity, the
non-field error messages, and the user table after the validation's own
side effects. -/
structure FormResult where
  valid : Bool
  errors : List String
  users : List User
deriving Repr, DecidableEq

def lockedFormError : String :=
  "Account temporarily locked due to too many failed login attempts. Please try again later or reset your password."

def invalidLoginFormError : String :=
  "Please enter a correct username and password. Note that both fields may be case-sensitive."

/-- `EnhancedLoginForm.is_valid()` for a bound form (forms.py lines 45-76 plus
Django's `AuthenticationForm.clean`).  With both fields present, `clean`
first repeats the triple-Q lookup and raises the lock error if
`is_account_locked()` holds — note this fires the lazy-unlock side effect and
happens before any password check — and otherwise defers to
`AuthenticationForm.clean`, which authenticates (by username only, since the
form was built without a request) and raises the generic invalid-login error
when that fails.  A missing field yields field-level errors with the clean
body skipped. -/
def login_form_clean (users : List User) (ident password : String) (now : Nat) :
    FormResult :=
  if ident = "" ∨ password = "" then
    { valid := false, errors := [], users := users }
  else
    match findByIdentifier users ident with
    | some u =>
      let r := is_account_locked u now
      let users' := updateUser users r.2
      if r.1 then
        { valid := false, errors := [lockedFormError], users := users' }
      else
        match authenticate users' ident password with
        | some _ => { valid := true, errors := [], users := users' }
        | none => { valid := false, errors := [invalidLoginFormError], users := users' }
    | none =>
      match authenticate users ident password with
      | some _ => { valid := true, errors := [], users := users }
      | none => { valid := false, errors := [invalidLoginFormError], users := users }

inductive RespKind where
  | render
  | redirectResend
  | redirectMfa
  | loggedIn
deriving Repr, DecidableEq

/-- What the browser gets back: the response kind, the messages-framework
texts, and the form's non-field errors (both are rendered to the user). -/
structure Response where
  kind : RespKind
  messages : List String
  form_errors : List String
deriving Repr, DecidableEq

def lockedViewMsg : String :=
  "Account temporarily locked due to too many failed login attempts. Try again later or reset your password."

def invalidCredentialsMsg : String := "Invalid credentials. Please try again."

def formErrorsMsg : String := "Please correct the errors below."

/-- `User.requires_mfa` (models.py lines 222-224). -/
def requires_mfa (u : User) : Bool :=
  u.mfa_method != "none" && u.email_verified

/-- A POST to `login_view` (views.py lines 339-443), for an unauthenticated
client.  `trusted` abstracts the `TrustedDevice` existence query for the
requesting device.  In source order: the per-IP gate, the `LoginAttempt`
row, the per-identifier gate, form validation (with its lock check and
re-authentication), and only then the view's own lookup, authentication,
lock check, resets and MFA branching.  `detect_suspicious_activity` and
`complete_login`'s session/device bookkeeping only write logs outside this
model; `complete_login`'s successful `LoginAttempt` row is kept. -/
def login_post (sys : Sys) (ident password ip : String) (trusted : Bool)
    (now : Nat) : Response × Sys :=
  if is_rate_limited sys.cache ("login_ip:" ++ ip) 10 now then
    ({ kind := .render,
       messages := ["Too many login attempts from this IP. Please try again later."],
       form_errors := [] }, sys)
  else
    let sys1 : Sys :=
      { sys with attempts := sys.attempts ++ [⟨ident, ip, false⟩] }
    if is_rate_limited sys1.cache ("login_user:" ++ ident) 5 now then
      ({ kind := .render,
         messages := ["Too many failed login attempts for this account. Please wait 15 minutes."],
         form_errors := [] }, sys1)
    else
      let fr := login_form_clean sys1.users ident password now
      let sys2 : Sys := { sys1 with users := fr.users }
      if fr.valid then
        match get_user_by_identifier sys2.users ident with
        | some u =>
          if !u.email_verified then
            ({ kind := .redirectResend,
               messages := ["Please verify your email before logging in. Check your inbox or request a new verification code."],
               form_errors := [] }, sys2)
          else
            match authenticate sys2.users u.username password with
            | some au =>
              let r := is_account_locked au now
              let sys3 : Sys := { sys2 with users := updateUser sys2.users r.2 }
              if r.1 then
                ({ kind := .render, messages := [lockedViewMsg],
                   form_errors := [] }, sys3)
              else
                let au' := reset_failed_logins r.2
                let sys4 : Sys :=
                  { sys3 with
                    users := updateUser sys3.users au',
                    cache := reset_rate_limit sys3.cache ("login_user:" ++ ident) }
                if requires_mfa au' && !trusted then
                  ({ kind := .redirectMfa, messages := [], form_errors := [] }, sys4)
                else
                  ({ kind := .loggedIn, messages := [], form_errors := [] },
                   { sys4 with attempts := sys4.attempts ++ [⟨au'.username, ip, true⟩] })
            | none =>
              let u' := increment_failed_login u now
              let sys3 : Sys :=
                { sys2 with
                  users := updateUser sys2.users u',
                  cache := increment_rate_limit
                    (increment_rate_limit sys2.cache ("login_user:" ++ ident) 15 now)
                    ("login_ip:" ++ ip) 15 now }
              ({ kind := .render, messages := [invalidCredentialsMsg],
                 form_errors := [] }, sys3)
        | none =>
          ({ kind := .render, messages := [invalidCredentialsMsg], form_errors := [] },
           { sys2 with cache := increment_rate_limit sys2.cache ("login_ip:" ++ ip) 15 now })
      else
        ({ kind := .render, messages := [formErrorsMsg], form_errors := fr.errors },
         sys2)

/-! ## Concrete records used by witnesses and counterexamples -/

/-- A plain verified account with no MFA and no lock. -/
def plainUser : User :=
  { username := "alice", email := "alice@x.com", phone_number := "+2348000000001",
    password := "hunter2secret", is_active := true, is_staff := false,
    email_verified := true, mfa_method := "none", totp_secret := "",
    mfa_backup_codes := [], failed_login_attempts := 0,
    account_locked_until := none }

/-- A verified account whose lock deadline (second 10000) is still in the
future at the probe times used below. -/
def lockedUser : User :=
  { username := "bob", email := "bob@x.com", phone_number := "+2348000000002",
    password := "correcthorse", is_active := true, is_staff := false,
    email_verified := true, mfa_method := "none", totp_secret := "",
    mfa_backup_codes := [], failed_login_attempts := 4,
    account_locked_until := some 10000 }

/-! ## Claim C1 -/

/-- Claim C1: recording a login failure increments the failed-attempt counter
and then derives the lock from the new count alone: fewer than 3 failures
leaves the lock field untouched (so an unlocked account stays unlocked), a
count of 3 or 4 locks until 5 minutes from now, and a count of 5 or more
locks until 30 minutes from now, regardless of any lock already in place
(the duration is recomputed, never added). -/
theorem C1_lockout_escalation (u : User) (now : Nat) :
    (increment_failed_login u now).failed_login_attempts
        = u.failed_login_attempts + 1
    ∧ (u.failed_login_attempts + 1 < 3 →
        (increment_failed_login u now).account_locked_until
          = u.account_locked_until)
    ∧ (u.failed_login_attempts + 1 < 3 → u.account_locked_until = none →
        (is_account_locked (increment_failed_login u now) now).1 = false)
    ∧ (3 ≤ u.failed_login_attempts + 1 → u.failed_login_attempts + 1 < 5 →
        (increment_failed_login u now).account_locked_until
          = some (now + 5 * 60))
    ∧ (5 ≤ u.failed_login_attempts + 1 →
        (increment_failed_login u now).account_locked_until
          = some (now + 30 * 60)) := by
  refine ⟨rfl, ?_, ?_, ?_, ?_⟩
  · intro h
    have h5 : ¬ 5 ≤ u.failed_login_attempts + 1 := by omega
    have h3 : ¬ 3 ≤ u.failed_login_attempts + 1 := by omega
    simp [increment_failed_login, h5, h3]
  · intro h hnone
    have h5 : ¬ 5 ≤ u.failed_login_attempts + 1 := by omega
    have h3 : ¬ 3 ≤ u.failed_login_attempts + 1 := by omega
    simp [increment_failed_login, is_account_locked, h5, h3, hnone]
  · intro h3 h5
    have h5' : ¬ 5 ≤ u.failed_login_attempts + 1 := by omega
    simp [increment_failed_login, h5', h3]
  · intro h5
    simp [increment_failed_login, h5]

/-- Witness for C1: a 6th failure at second 1000 on an account that already
holds a lock yields the counter 6 and a fresh 30-minute lock ending at
second 2800 — not an extension of the old lock. -/
theorem C1_lockout_escalation_witness :
    (increment_failed_login lockedUser 1000).failed_login_attempts = 5
    ∧ (increment_failed_login lockedUser 1000).account_locked_until
        = some (1000 + 30 * 60) :=
  ⟨(C1_lockout_escalation lockedUser 1000).1,
   (C1_lockout_escalation lockedUser 1000).2.2.2.2 (by decide)⟩

/-! ## Claim C2 -/

/-- Claim C2: when the stored lock deadline is in the past, the first
`is_account_locked` call answers false and clears both the deadline and the
failure counter, and any immediately following call on the result answers
false and changes nothing; when the deadline is in the future the call
answers true and returns the record unchanged. -/
theorem C2_lazy_unlock (u : User) (now t : Nat)
    (hlock : u.account_locked_until = some t) :
    (t < now →
      (is_account_locked u now).1 = false
      ∧ (is_account_locked u now).2.account_locked_until = none
      ∧ (is_account_locked u now).2.failed_login_attempts = 0
      ∧ ∀ now2, is_account_locked (is_account_locked u now).2 now2
          = (false, (is_account_locked u now).2))
    ∧ (now < t → is_account_locked u now = (true, u)) := by
  constructor
  · intro h
    have hnl : ¬ now < t := by omega
    simp [is_account_locked, hlock, hnl]
  · intro h
    simp [is_account_locked, hlock, h]

/-- Witness for C2: `lockedUser`'s deadline 10000 is past at second 20000;
the first check unlocks and zeroes the counter, the second is a no-op. -/
theorem C2_lazy_unlock_witness :
    (is_account_locked lockedUser 20000).1 = false
    ∧ (is_account_locked lockedUser 20000).2.failed_login_attempts = 0
    ∧ is_account_locked (is_account_locked lockedUser 20000).2 20001
        = (false, (is_account_locked lockedUser 20000).2) :=
  ⟨((C2_lazy_unlock lockedUser 20000 10000 rfl).1 (by decide)).1,
   ((C2_lazy_unlock lockedUser 20000 10000 rfl).1 (by decide)).2.2.1,
   ((C2_lazy_unlock lockedUser 20000 10000 rfl).1 (by decide)).2.2.2 20001⟩

/-! ## Claim C10 -/

/-- Claim C10: with an empty TOTP secret, `verify_totp` answers false for
every submitted code and every possible behaviour of the underlying TOTP
library, and leaves the account record unchanged. -/
theorem C10_totp_unconfigured (totpCheck : String → String → Bool) (u : User)
    (otp : String) (h : u.totp_secret = "") :
    verify_totp totpCheck u otp = (false, u) := by
  simp [verify_totp, h]

/-- Witness for C10: `plainUser` has no TOTP secret, so even a library that
would accept everything is never consulted. -/
theorem C10_totp_unconfigured_witness :
    verify_totp (fun _ _ => true) plainUser "000000" = (false, plainUser) :=
  C10_totp_unconfigured (fun _ _ => true) plainUser "000000" rfl

/-! ## Claim C6 -/

/-- Counterexample to C6 as stated: a fresh counter incremented at second 0
with a 15-minute window and incremented again at second 600 — still inside
the original window — ends with deadline 1500, not the 900 a fixed window
anchored at the first hit would keep (the source passes the timeout to
`cache.set` on every increment). -/
theorem C6_fixed_window_cx :
    increment_rate_limit (increment_rate_limit [] "k" 15 0) "k" 15 600
      = [{ key := "rate_limit:k", value := 2, expires_at := 1500 }]
    ∧ (1500 : Nat) ≠ 0 + 15 * 60 :=
  ⟨by decide, by decide⟩

/-- Amended C6: every call to `increment_rate_limit` — not only the first on
a fresh counter — rewrites the key's entry with the incremented live count
and a deadline one full window after that call, so the window slides with
the latest hit; the incremented value is immediately visible. -/
theorem C6_sliding_window (c : List CacheEntry) (key : String) (w now : Nat) :
    (increment_rate_limit c key w now).find? (fun e => e.key == rlKey key)
      = some { key := rlKey key, value := cacheGet c (rlKey key) now + 1,
               expires_at := now + w * 60 }
    ∧ cacheGet (increment_rate_limit c key w now) (rlKey key) now
      = cacheGet c (rlKey key) now + 1 := by
  constructor
  · simp [increment_rate_limit, cacheSet, List.find?]
  · have hle : ¬ now + w * 60 < now := by omega
    simp [increment_rate_limit, cacheSet, cacheGet, List.find?, hle]

/-! ## Claim C5 -/

/-- Counterexample to C5 as stated: an MFA OTP is stored with
`expiry_minutes = 5` (as `generate_and_send_mfa_otp` does); a wrong attempt
at second 240 keeps the Django session alive, and the correct code submitted
at second 360 — more than 5 minutes after issuance — verifies successfully,
because `verify_otp_from_session` applies a hard-coded 10-minute age check
for every purpose. -/
theorem C5_mfa_expiry_cx :
    (verify_otp_from_session
        (verify_otp_from_session (store_otp_in_session "123456" 5 0)
          "000000" 240 5).2.2
        "123456" 360 5).1 = true
    ∧ (store_otp_in_session "123456" 5 0).session_expires_at < 360 :=
  ⟨by decide, by decide⟩

/-- Amended C5: the verification-side expiry window is 10 minutes for every
purpose (email verification and MFA alike); a code submitted more than 10
minutes after issuance is rejected as expired even when it equals the stored
code, and the challenge is invalidated (cleared from the session).  The MFA
5-minute figure exists only as the session's inactivity TTL, which
verification never consults. -/
theorem C5_fixed_ten_minute_expiry (s : OtpSession) (otp stored : String)
    (created now maxA : Nat)
    (hs : s.otp = some stored) (hne : stored ≠ "")
    (hc : s.created_at = some created)
    (hfa : s.failed_attempts < maxA)
    (hexp : created + 10 * 60 < now) :
    verify_otp_from_session s otp now maxA
      = (false, some "OTP has expired. Please request a new one.",
         clear_otp_session s) := by
  have h1 : ¬ maxA ≤ s.failed_attempts := by omega
  simp [verify_otp_from_session, hs, hc, hne, h1, hexp]

/-- Witness for C5: an email-verification OTP stored with the 10-minute
session TTL and resubmitted correctly at second 601 of a 600-second window
is rejected as expired and the challenge is cleared. -/
theorem C5_fixed_ten_minute_expiry_witness :
    verify_otp_from_session (store_otp_in_session "654321" 10 0) "654321" 601 5
      = (false, some "OTP has expired. Please request a new one.",
         clear_otp_session (store_otp_in_session "654321" 10 0)) :=
  C5_fixed_ten_minute_expiry (store_otp_in_session "654321" 10 0)
    "654321" "654321" 0 601 5 rfl (by decide) rfl (by decide) (by decide)

/-! ## Claim C7 -/

/-- The session left behind by a sequence of OTP submissions (code, time)
against a freshly issued challenge, with the default failure cap of 5. -/
def otpRun (c : String) (t0 e : Nat) (ws : List (String × Nat)) : OtpSession :=
  ws.foldl (fun s wt => (verify_otp_from_session s wt.1 wt.2 5).2.2)
    { otp := some c, created_at := some t0, failed_attempts := 0,
      session_expires_at := e }

/-- Claim C7: five wrong submissions (each within the age window, so each one
counts) exhaust a freshly issued challenge — the fifth wrong attempt clears
the stored code — after which a sixth submission fails even with the correct
code; and in general a cleared challenge is terminal: every submission
against it fails and leaves it unchanged, so a challenge that has left the
issued state can never verify. -/
theorem C7_otp_exhaustion (c : String) (t0 e : Nat)
    (w1 w2 w3 w4 w5 : String) (t1 t2 t3 t4 t5 t6 : Nat)
    (hc : c ≠ "")
    (hw1 : w1 ≠ c) (hw2 : w2 ≠ c) (hw3 : w3 ≠ c) (hw4 : w4 ≠ c) (hw5 : w5 ≠ c)
    (ht1 : ¬ t0 + 10 * 60 < t1) (ht2 : ¬ t0 + 10 * 60 < t2)
    (ht3 : ¬ t0 + 10 * 60 < t3) (ht4 : ¬ t0 + 10 * 60 < t4)
    (ht5 : ¬ t0 + 10 * 60 < t5) :
    otpRun c t0 e [(w1, t1), (w2, t2), (w3, t3), (w4, t4), (w5, t5)]
      = { otp := none, created_at := none, failed_attempts := 0,
          session_expires_at := e }
    ∧ verify_otp_from_session
        (otpRun c t0 e [(w1, t1), (w2, t2), (w3, t3), (w4, t4), (w5, t5)])
        c t6 5
      = (false, some "No OTP found. Please request a new one.",
         otpRun c t0 e [(w1, t1), (w2, t2), (w3, t3), (w4, t4), (w5, t5)])
    ∧ (∀ s' : OtpSession, s'.otp = none → ∀ code now m,
        verify_otp_from_session s' code now m
          = (false, some "No OTP found. Please request a new one.", s')) := by
  have hterm : ∀ s' : OtpSession, s'.otp = none → ∀ code now m,
      verify_otp_from_session s' code now m
        = (false, some "No OTP found. Please request a new one.", s') := by
    intro s' h code now m
    cases hco : s'.created_at <;> simp [verify_otp_from_session, h, hco]
  have hrun : otpRun c t0 e [(w1, t1), (w2, t2), (w3, t3), (w4, t4), (w5, t5)]
      = { otp := none, created_at := none, failed_attempts := 0,
          session_expires_at := e } := by
    simp only [otpRun, List.foldl]
    simp [verify_otp_from_session, clear_otp_session, hc, hw1, hw2, hw3, hw4,
      hw5, ht1, ht2, ht3, ht4, ht5]
  refine ⟨hrun, ?_, hterm⟩
  rw [hrun]
  exact hterm _ rfl c t6 5

/-- Witness for C7: a concrete challenge "123456" exhausted by five distinct
wrong codes; the sixth, correct, submission still fails. -/
theorem C7_otp_exhaustion_witness :
    (verify_otp_from_session
        (otpRun "123456" 0 600
          [("000000", 10), ("000001", 20), ("000002", 30), ("000003", 40),
           ("000004", 50)])
        "123456" 60 5).1 = false := by
  have h := C7_otp_exhaustion "123456" 0 600 "000000" "000001" "000002"
    "000003" "000004" 10 20 30 40 50 60 (by decide) (by decide) (by decide)
    (by decide) (by decide) (by decide) (by decide) (by decide) (by decide)
    (by decide) (by decide)
  rw [h.2.1]

/-! ## Claim C9 -/

/-- Claim C9: with 10 generated backup codes whose hashes are pairwise
distinct, consuming a generated code succeeds and removes exactly that
code's hash; consuming the same code again fails and leaves the stored set
unchanged; every other generated code still consumes successfully; and a
code that was never generated fails with the stored set untouched.
(Hash distinctness is a hypothesis because the source stores unsalted
SHA-256 digests of independently drawn random codes.) -/
theorem C9_backup_code_single_use (hash : String → String) (u : User)
    (codes : List String) (code : String)
    (_hlen : codes.length = 10)
    (hnd : (codes.map hash).Nodup)
    (hmem : code ∈ codes) :
    (verify_backup_code hash (generate_backup_codes hash u codes).1 code).1
      = true
    ∧ (verify_backup_code hash (generate_backup_codes hash u codes).1
        code).2.mfa_backup_codes = (codes.map hash).erase (hash code)
    ∧ verify_backup_code hash
        (verify_backup_code hash (generate_backup_codes hash u codes).1 code).2
        code
      = (false,
         (verify_backup_code hash (generate_backup_codes hash u codes).1
           code).2)
    ∧ (∀ c' ∈ codes, hash c' ≠ hash code →
        (verify_backup_code hash
          (verify_backup_code hash (generate_backup_codes hash u codes).1
            code).2 c').1 = true)
    ∧ (∀ other, hash other ∉ codes.map hash →
        verify_backup_code hash (generate_backup_codes hash u codes).1 other
          = (false, (generate_backup_codes hash u codes).1)) := by
  have hm : hash code ∈ codes.map hash := List.mem_map.mpr ⟨code, hmem, rfl⟩
  have hni : hash code ∉ (codes.map hash).erase (hash code) := by
    intro hmm
    exact ((hnd.mem_erase_iff).mp hmm).1 rfl
  refine ⟨?_, ?_, ?_, ?_, ?_⟩
  · simp [verify_backup_code, generate_backup_codes, hm]
  · simp [verify_backup_code, generate_backup_codes, hm]
  · simp [verify_backup_code, generate_backup_codes, hm, hni]
  · intro c' hc' hne
    have hm' : hash c' ∈ codes.map hash := List.mem_map.mpr ⟨c', hc', rfl⟩
    have hm'' : hash c' ∈ (codes.map hash).erase (hash code) :=
      (List.mem_erase_of_ne hne).mpr hm'
    simp [verify_backup_code, generate_backup_codes, hm, hm'']
  · intro other hno
    simp [verify_backup_code, generate_backup_codes, hno]

/-- Witness for C9: ten distinct single-character codes hashed by the
identity function; consuming "3" once succeeds, twice fails, "7" still
works afterwards, and "x" never works. -/
theorem C9_backup_code_single_use_witness :
    (verify_backup_code id
      (generate_backup_codes id plainUser
        ["0", "1", "2", "3", "4", "5", "6", "7", "8", "9"]).1 "3").1 = true
    ∧ verify_backup_code id
        (verify_backup_code id
          (generate_backup_codes id plainUser
            ["0", "1", "2", "3", "4", "5", "6", "7", "8", "9"]).1 "3").2 "3"
      = (false,
         (verify_backup_code id
           (generate_backup_codes id plainUser
             ["0", "1", "2", "3", "4", "5", "6", "7", "8", "9"]).1 "3").2)
    ∧ (verify_backup_code id
        (verify_backup_code id
          (generate_backup_codes id plainUser
            ["0", "1", "2", "3", "4", "5", "6", "7", "8", "9"]).1 "3").2
        "7").1 = true := by
  have h := C9_backup_code_single_use id plainUser
    ["0", "1", "2", "3", "4", "5", "6", "7", "8", "9"] "3"
    (by decide) (by decide) (by decide)
  exact ⟨h.1, h.2.2.1, h.2.2.2.1 "7" (by decide) (by decide)⟩

/-! ## Claim C8 -/

theorem splitCharAux_no_sep (sep : Char) (l : List Char) (h : sep ∉ l) :
    splitCharAux sep l = [l] := by
  induction l with
  | nil => rfl
  | cons c cs ih =>
    have hc : ¬ c = sep := fun e => h (e ▸ List.mem_cons_self c cs)
    have hcs : sep ∉ cs := fun hm => h (List.mem_cons_of_mem _ hm)
    simp [splitCharAux, ih hcs, hc]

theorem splitCharAux_append (sep : Char) (l1 l2 : List Char)
    (h1 : sep ∉ l1) (h2 : sep ∉ l2) :
    splitCharAux sep (l1 ++ sep :: l2) = [l1, l2] := by
  induction l1 with
  | nil => simp [splitCharAux, splitCharAux_no_sep sep l2 h2]
  | cons c cs ih =>
    have hc : ¬ c = sep := fun e => h1 (e ▸ List.mem_cons_self c cs)
    have hcs : sep ∉ cs := fun hm => h1 (List.mem_cons_of_mem _ hm)
    simp [splitCharAux, ih hcs, hc]

/-- Splitting `a ++ ":" ++ b` on the colon recovers `[a, b]` whenever neither
part contains a colon (true of hex digests and decimal timestamps). -/
theorem pySplit_append_colon (a b : String)
    (h1 : ':' ∉ a.data) (h2 : ':' ∉ b.data) :
    pySplit (a ++ ":" ++ b) ':' = [a, b] := by
  have hdata : (a ++ ":" ++ b).data = a.data ++ ':' :: b.data := by
    simp [String.data_append]
  rw [pySplit, hdata, splitCharAux_append ':' a.data b.data h1 h2]
  cases a
  cases b
  rfl

/-- Claim C8: `verify_token` answers a bare boolean and every failure mode
yields the same `false`: a token older than the 24-hour window, a token
checked against a different email than it was issued for (provided the two
HMAC digests differ), a token whose digest part was altered in any way, a
token that does not split into exactly two colon-separated parts, and a
token whose timestamp part is not numeric; while the unaltered token checks
as `true` for its own email within the window.  The digest and timestamp
hypotheses hold for every real HMAC hex digest and decimal timestamp
(neither contains a colon, and `str(n)` round-trips through `int`). -/
theorem C8_signed_link_token (mac : String → String → String)
    (secret e1 e2 : String) (issueT verT : Nat)
    (hd : ':' ∉ (mac secret (pyLower e1 ++ ":" ++ toString issueT)).data)
    (hts : ':' ∉ (toString issueT).data)
    (hparse : pyNat? (toString issueT) = some issueT) :
    (24 * 3600 < verT - issueT →
      verify_token mac secret (generate_verification_token mac secret e1 issueT)
        e1 verT 24 = false)
    ∧ (mac secret (pyLower e2 ++ ":" ++ toString issueT)
          ≠ mac secret (pyLower e1 ++ ":" ++ toString issueT) →
        verify_token mac secret (generate_verification_token mac secret e1 issueT)
          e2 verT 24 = false)
    ∧ (∀ d, d ≠ mac secret (pyLower e1 ++ ":" ++ toString issueT) →
        ':' ∉ d.data →
        verify_token mac secret (d ++ ":" ++ toString issueT) e1 verT 24
          = false)
    ∧ (∀ t, (pySplit t ':').length ≠ 2 →
        verify_token mac secret t e1 verT 24 = false)
    ∧ (∀ t x y, pySplit t ':' = [x, y] → pyNat? y = none →
        verify_token mac secret t e1 verT 24 = false)
    ∧ (¬ 24 * 3600 < verT - issueT →
        verify_token mac secret (generate_verification_token mac secret e1 issueT)
          e1 verT 24 = true) := by
  have hgen : generate_verification_token mac secret e1 issueT
      = mac secret (pyLower e1 ++ ":" ++ toString issueT) ++ ":"
          ++ toString issueT := rfl
  have hsplit : pySplit (generate_verification_token mac secret e1 issueT) ':'
      = [mac secret (pyLower e1 ++ ":" ++ toString issueT), toString issueT] := by
    rw [hgen]
    exact pySplit_append_colon _ _ hd hts
  refine ⟨?_, ?_, ?_, ?_, ?_, ?_⟩
  · intro hexp
    simp [verify_token, hsplit, hparse, hexp]
  · intro hne
    have hne' : ¬ mac secret (pyLower e1 ++ ":" ++ toString issueT)
        = mac secret (pyLower e2 ++ ":" ++ toString issueT) :=
      fun e => hne e.symm
    simp only [verify_token, hsplit, hparse]
    split
    · rfl
    · simp [hne']
  · intro d hne hdcol
    have hsp : pySplit (d ++ ":" ++ toString issueT) ':'
        = [d, toString issueT] := pySplit_append_colon _ _ hdcol hts
    simp only [verify_token, hsp, hparse]
    split
    · rfl
    · simp [hne]
  · intro t hlen
    rcases hsp : pySplit t ':' with _ | ⟨x, _ | ⟨y, _ | ⟨z, rest⟩⟩⟩
    · simp [verify_token, hsp]
    · simp [verify_token, hsp]
    · exact absurd (by simp [hsp]) hlen
    · simp [verify_token, hsp]
  · intro t x y hsp hnone
    simp [verify_token, hsp, hnone]
  · intro hok
    simp [verify_token, hsplit, hparse, hok]

/-- A concrete stand-in for the HMAC digest used by the C8 witness: the sum
of the message's character codes plus the key length, rendered in decimal
(so it never contains a colon and separates the two witness emails). -/
def macDemo (secret message : String) : String :=
  toString ((message.data.map Char.toNat).sum + secret.length)

/-- Witness for C8: with the concrete digest function `macDemo`, the token
issued at second 5 for `a@b.com` verifies at second 100, fails for
`c@d.com`, fails at second 90000 (past the 24-hour window), fails with an
altered digest, and malformed tokens fail. -/
theorem C8_signed_link_token_witness :
    verify_token macDemo "k" (generate_verification_token macDemo "k" "a@b.com" 5)
      "a@b.com" 100 24 = true
    ∧ verify_token macDemo "k" (generate_verification_token macDemo "k" "a@b.com" 5)
        "c@d.com" 100 24 = false
    ∧ verify_token macDemo "k" (generate_verification_token macDemo "k" "a@b.com" 5)
        "a@b.com" 90000 24 = false
    ∧ verify_token macDemo "k" ("737:" ++ toString 5) "a@b.com" 100 24 = false
    ∧ verify_token macDemo "k" "garbage" "a@b.com" 100 24 = false := by
  have h := C8_signed_link_token macDemo "k" "a@b.com" "c@d.com" 5 100
    (by decide) (by decide) (by decide)
  have h' := C8_signed_link_token macDemo "k" "a@b.com" "c@d.com" 5 90000
    (by decide) (by decide) (by decide)
  refine ⟨h.2.2.2.2.2 (by decide), h.2.1 (by decide), h'.1 (by decide),
    ?_, h.2.2.2.1 "garbage" (by decide)⟩
  exact h.2.2.1 "737" (by decide) (by decide)

/-! ## Claim C3 -/

/-- Counterexample to C3 as stated: a login attempt with a WRONG password
against the locked, email-verified `lockedUser` is nevertheless rejected
with the lock message (raised by `EnhancedLoginForm.clean` before any
password check), so the account-lock check does not happen only after the
password has been verified as correct. -/
theorem C3_lock_check_order_cx :
    (login_post { users := [lockedUser], cache := [], attempts := [] }
        "bob" "totallywrong" "9.9.9.9" false 100).1
      = { kind := .render, messages := [formErrorsMsg],
          form_errors := [lockedFormError] }
    ∧ "totallywrong" ≠ lockedUser.password :=
  ⟨by decide, by decide⟩

/-- Amended C3: the lock check runs during form validation, before password
verification, so every login attempt — whatever the password — against a
currently locked account is rejected with the lock message (as a form error
alongside the generic "Please correct the errors below."), and the rejection
leaves the account's failure state and every rate counter unchanged; only
the `LoginAttempt` analytics row is appended. -/
theorem C3_lock_rejection_frame (u : User) (cache0 : List CacheEntry)
    (att : List LoginAttemptRec) (ident password ip : String)
    (trusted : Bool) (t now : Nat)
    (hmatch : ident = u.username ∨ ident = u.email ∨ ident = u.phone_number)
    (hident : ident ≠ "") (hpw : password ≠ "")
    (_hverified : u.email_verified = true)
    (hlock : u.account_locked_until = some t) (hfut : now < t)
    (hip : cacheGet cache0 (rlKey ("login_ip:" ++ ip)) now < 10)
    (huser : cacheGet cache0 (rlKey ("login_user:" ++ ident)) now < 5) :
    login_post { users := [u], cache := cache0, attempts := att } ident
        password ip trusted now
      = ({ kind := .render, messages := [formErrorsMsg],
           form_errors := [lockedFormError] },
         { users := [u], cache := cache0,
           attempts := att
             ++ [{ identifier := ident, ip := ip, success := false }] }) := by
  have hp : (u.username == ident || u.email == ident
      || u.phone_number == ident) = true := by
    rcases hmatch with h | h | h <;> simp [h]
  have hfind : findByIdentifier [u] ident = some u :=
    List.find?_cons_of_pos _ hp
  have hlocked : is_account_locked u now = (true, u) := by
    simp [is_account_locked, hlock, hfut]
  have hupd : updateUser [u] u = [u] := by simp [updateUser]
  have hform : login_form_clean [u] ident password now
      = { valid := false, errors := [lockedFormError], users := [u] } := by
    unfold login_form_clean
    rw [if_neg (by simp [hident, hpw]), hfind]
    simp [hlocked, hupd]
  have hip' : is_rate_limited cache0 ("login_ip:" ++ ip) 10 now = false := by
    simp only [is_rate_limited, decide_eq_false_iff_not, not_le]
    exact hip
  have huser' : is_rate_limited cache0 ("login_user:" ++ ident) 5 now
      = false := by
    simp only [is_rate_limited, decide_eq_false_iff_not, not_le]
    exact huser
  simp [login_post, hip', huser', hform]

/-- Witness for amended C3: the correct password against the locked account
is rejected with the lock message, without touching the counter, the lock,
or the cache. -/
theorem C3_lock_rejection_frame_witness :
    login_post { users := [lockedUser], cache := [], attempts := [] }
        "bob" "correcthorse" "9.9.9.9" false 100
      = ({ kind := .render, messages := [formErrorsMsg],
           form_errors := [lockedFormError] },
         { users := [lockedUser], cache := [],
           attempts := [{ identifier := "bob", ip := "9.9.9.9",
                          success := false }] }) := by
  have h := C3_lock_rejection_frame lockedUser [] [] "bob" "correcthorse"
    "9.9.9.9" false 10000 100 (Or.inl rfl) (by decide) (by decide) rfl rfl
    (by decide) (by decide) (by decide)
  simpa using h

/-! ## Claim C4 -/

/-- Claim C4, evaluated at its failing input: a login with a nonexistent
identifier and a login with an existing verified account's username plus a
wrong password produce byte-identical user-facing output (the generic
invalid-login form error plus "Please correct the errors below."), as the
claim's anti-enumeration half says — but, contrary to the claim, NEITHER
run touches any rate counter (the cache is unchanged in both) and the
account's failure state is untouched, because `EnhancedLoginForm` already
re-authenticates inside validation and an authentication failure makes the
form invalid before the view's increment branches can run. -/
theorem C4_enumeration_vs_dead_counters :
    (login_post { users := [], cache := [], attempts := [] } "ghost" "pw"
        "8.8.8.8" false 100).1
      = (login_post { users := [plainUser], cache := [], attempts := [] }
          "alice" "wrongpw" "8.8.8.8" false 100).1
    ∧ (login_post { users := [], cache := [], attempts := [] } "ghost" "pw"
        "8.8.8.8" false 100).2.cache = []
    ∧ (login_post { users := [plainUser], cache := [], attempts := [] }
        "alice" "wrongpw" "8.8.8.8" false 100).2.cache = []
    ∧ (login_post { users := [plainUser], cache := [], attempts := [] }
        "alice" "wrongpw" "8.8.8.8" false 100).2.users = [plainUser]
    ∧ "wrongpw" ≠ plainUser.password :=
  ⟨by decide, by decide, by decide, by decide, by decide⟩

end MyPadi
